import Mathlib

/-!
Shallow embedding of `src/handlers/callbacks.py` (Telegram callback dispatcher,
countdown evaluator and withdrawal eligibility evaluator).

Modelling conventions:
* Python monetary floats are modelled as `Rat`; Python integers as `Int`.
* The Telegram transport (`query.answer`, `query.edit_message_text`) and the
  logger are modelled as an emitted list of `Effect`s; emission itself is
  assumed to succeed, while collaborator calls (database lookups, content
  builders, message edits) may raise, controlled by a `Faults` record.
* `context.user_data` is modelled as an association list `Session`.
* External collaborators (`database.*`, the `commands` content builders and
  the delegated admin handler) are supplied through an `Env` record; the
  delegated admin handler performs its own I/O and is out of this core's
  scope, so it contributes no effects of its own here, only a possible raise.
-/

/-- Python `f'{n:02d}'` for the non-negative integers produced here. -/
def pad2 (n : Int) : String :=
  if n < 10 then "0" ++ toString n else toString n

/-- The integer number of cents obtained by rounding `q` to two decimals
(Python `f'{q:.2f}'` rounding, modelled as round-half-up on exact rationals):
this integer formula computes `⌊q * 100 + 1/2⌋`, since
`q * 100 + 1/2 = (200 * num + den) / (2 * den)`. -/
def cents (q : Rat) : Int :=
  Int.fdiv (200 * q.num + q.den) (2 * q.den)

/-- `q` rounded to two decimal places, as a rational. -/
def round2 (q : Rat) : Rat :=
  Rat.divInt (cents q) 100

/-- Python `f'{q:.2f}'`: the two-decimal display string of `q`. -/
def fmt2 (q : Rat) : String :=
  toString (Int.fdiv (cents q) 100) ++ "." ++ pad2 (Int.emod (cents q) 100)

/-- The characters escaped by `escape_markdown` (Python `r'_*[]()~`>#+-=|{}.!'`).
The backquote and the braces are written via `Char.ofNat` (codes 96, 123, 125). -/
def escapeChars : List Char :=
  ['_', '*', '[', ']', '(', ')', '~', Char.ofNat 96, '>', '#', '+', '-', '=', '|',
   Char.ofNat 123, Char.ofNat 125, '.', '!']

/-- `escape_markdown` from the source: prefix every Telegram-markdown-v2
special character with a backslash. -/
def escape_markdown (s : String) : String :=
  String.mk (s.data.flatMap (fun c => if c ∈ escapeChars then ['\\', c] else [c]))

/-- Python `s.startswith(pre)`. -/
def pyStartsWith (s pre : String) : Bool :=
  pre.data.isPrefixOf s.data

/-- Python `str.split(sep)` on character lists: `acc` holds the (reversed)
characters of the current field. -/
def pySplitAux (sep : Char) : List Char → List Char → List (List Char)
  | acc, [] => [acc.reverse]
  | acc, c :: cs =>
    if c = sep then acc.reverse :: pySplitAux sep [] cs
    else pySplitAux sep (c :: acc) cs

/-- `query.data.split(':')[-1]` from `handle_account_status_check`:
the last colon-separated segment of the callback data. -/
def jobIdOf (data : String) : String :=
  String.mk ((pySplitAux ':' [] data.data).getLastD [])

/-- A keyboard markup, abstracted to the `callback_data` strings of its buttons. -/
abbrev Markup := List String

/-- One observable transport/log effect of the handler. -/
inductive Effect where
  /-- `query.answer(...)`: `none` is the bare receipt acknowledgment,
  `some t` an alert acknowledgment with text `t`. -/
  | answer (alert : Option String)
  /-- `query.edit_message_text(text, reply_markup)`: a view update. -/
  | edit (text : String) (keyboard : Option Markup)
  /-- `logger.warning(...)`. -/
  | logWarning (msg : String)
  /-- `logger.error(...)`. -/
  | logError
deriving DecidableEq, Repr

/-- A value stored in `context.user_data`. -/
inductive SVal where
  | num (q : Rat)
  | str (s : String)
deriving DecidableEq, Repr

/-- `context.user_data`, modelled as an association list over string keys. -/
abbrev Session := List (String × SVal)

/-- Dictionary lookup in a `Session`. -/
def getKey : Session → String → Option SVal
  | [], _ => none
  | (k', v) :: rest, k => if k' = k then some v else getKey rest k

/-- Dictionary assignment in a `Session` (replace or append). -/
def setKey : Session → String → SVal → Session
  | [], k, v => [(k, v)]
  | (k', v') :: rest, k, v =>
    if k' = k then (k, v) :: rest else (k', v') :: setKey rest k v

/-- The record returned by `database.get_account_time_remaining`:
`time_remaining` is optional because the source reads it with
`account.get('time_remaining', 0)`. -/
structure Account where
  time_remaining : Option Int
  phone_number : String
deriving DecidableEq, Repr

/-- One entry of the country configuration; `price_ok` is optional because the
source reads it with `country_info.get('price_ok', 0.0)`. -/
structure CountryInfo where
  price_ok : Option Rat
deriving DecidableEq, Repr

/-- The external collaborators (Ledger, settings, content builders). Fields in
declaration order: account lookup, ordered country configuration, total
balance per user, the two withdrawal settings (absent means default), the four
navigation content builders, and the support message from `bot_data`. -/
structure Env where
  getAccount : String → Option Account
  countries : List (String × CountryInfo)
  balanceTotal : Int → Rat
  minWithdraw : Option Rat
  maxWithdraw : Option Rat
  startMenu : String × Option Markup
  balanceContent : Int → String × Option Markup
  capContent : String × Option Markup
  rulesContent : String × Option Markup
  supportMessage : Option String

/-- Fault injection: which collaborator calls raise an exception. Fields in
declaration order: `get_account_time_remaining`, `get_countries_config`,
the `commands` content builders, `get_user_balance_details`, `get_setting`,
the delegated admin confirmation handler, and `edit_message_text`. -/
structure Faults where
  accountLookup : Bool
  countriesConfig : Bool
  contentFail : Bool
  balanceDetails : Bool
  settingFail : Bool
  adminFail : Bool
  editFail : Bool
deriving DecidableEq, Repr

/-- The fault-free environment: every collaborator call succeeds. -/
def noFaults : Faults :=
  ⟨false, false, false, false, false, false, false⟩

/-- The country-price lookup loop: first configured prefix matching the phone
number wins; a missing match or a missing `price_ok` yields 0. -/
def lookupPrice (countries : List (String × CountryInfo)) (phone : String) : Rat :=
  match countries.find? (fun p => pyStartsWith phone p.1) with
  | some p => p.2.price_ok.getD 0
  | none => 0

/-- The terminal "processing" message text of the expired branch. -/
def expiredText (phone : String) (price : Rat) : String :=
  "⏳ *Account Processing*\n\n" ++
  "📱 Number: `" ++ escape_markdown phone ++ "`\n" ++
  "💰 Price: `$" ++ escape_markdown (fmt2 price) ++ "`\n" ++
  "⏰ Status: *Processing\\.\\.\\.*\n\n" ++
  "🔍 Spam Status: 🟡 New Registration\n\n" ++
  "🔄 Your account is now being verified\\. Please wait\\."

/-- The countdown message text of the pending branch; the remaining time is
rendered as zero-padded `minutes:seconds` with Python floor division. -/
def countdownText (phone : String) (price : Rat) (tr : Int) : String :=
  "⏳ *Account Verification*\n\n" ++
  "📱 Number: `" ++ escape_markdown phone ++ "`\n" ++
  "💰 Price: `$" ++ escape_markdown (fmt2 price) ++ "`\n" ++
  "⏰ Remaining: *" ++ pad2 (Int.fdiv tr 60) ++ ":" ++ pad2 (Int.emod tr 60) ++ "*\n\n" ++
  "🔍 Spam Status: 🟡 New Registration\n\n" ++
  "👆 The bot will automatically verify your account\\."

/-- The withdrawal request message text. -/
def withdrawText (total amt : Rat) : String :=
  "💸 *Withdrawal Request*\n\n💰 Available Balance: `$" ++ escape_markdown (fmt2 total) ++
  "`\n💵 Withdrawal Amount: `$" ++ escape_markdown (fmt2 amt) ++
  "`\n\nPlease send your wallet address to proceed\\."

/-- The spec's Countdown Evaluator result classification. -/
inductive CountdownResult where
  | NotFound
  | Expired
  | Pending (remaining : Int)
deriving DecidableEq, Repr

/-- The branch taken by `handle_account_status_check` on a fault-free run,
as the spec's Countdown Evaluator result. -/
def countdownResult (env : Env) (data : String) : CountdownResult :=
  match env.getAccount (jobIdOf data) with
  | none => CountdownResult.NotFound
  | some account =>
    if account.time_remaining.getD 0 ≤ 0 then CountdownResult.Expired
    else CountdownResult.Pending (account.time_remaining.getD 0)

/-- `handle_account_status_check` from the source: returns the effects emitted
and whether an exception escaped the handler. The message edits are wrapped in
an internal try/except that logs and swallows the error. -/
def handle_account_status_check (env : Env) (flt : Faults) (data : String) :
    List Effect × Bool :=
  let job_id := jobIdOf data
  if flt.accountLookup then ([], true) else
  match env.getAccount job_id with
  | none => ([Effect.answer (some "Account not found or already processed!")], false)
  | some account =>
    let time_remaining := account.time_remaining.getD 0
    let phone := account.phone_number
    if time_remaining ≤ 0 then
      let ack := Effect.answer (some "⏰ Time expired! Processing will begin shortly.")
      if flt.countriesConfig then ([ack], true) else
      let price := lookupPrice env.countries phone
      if flt.editFail then ([ack, Effect.logError], false)
      else ([ack, Effect.edit (expiredText phone price) none], false)
    else
      let ack := Effect.answer
        (some ("👆 You must wait for " ++ toString time_remaining ++ " seconds more."))
      if flt.countriesConfig then ([ack], true) else
      let price := lookupPrice env.countries phone
      if flt.editFail then ([ack, Effect.logError], false)
      else
        ([ack, Effect.edit (countdownText phone price time_remaining)
           (some ["check_account_status:" ++ job_id])], false)

/-- The spec's Withdrawal Eligibility Evaluator result. -/
inductive WithdrawResult where
  | Ineligible
  | Eligible (amt : Rat)
deriving DecidableEq, Repr

/-- The withdrawal decision logic of the `withdraw_start` branch, abstracted
over its three numeric inputs: full-precision comparison and clamping. -/
def withdrawEval (total min_w max_w : Rat) : WithdrawResult :=
  if total < min_w then WithdrawResult.Ineligible
  else WithdrawResult.Eligible (min total max_w)

/-- Modelled from the spec: a hypothetical evaluator that would compare the
2-digit rounded display values instead of the full-precision values. The
source does not do this; it is stated only for contrast. -/
def withdrawEvalOnRounded (total min_w max_w : Rat) : WithdrawResult :=
  if round2 total < round2 min_w then WithdrawResult.Ineligible
  else WithdrawResult.Eligible (min (round2 total) (round2 max_w))

/-- The tag dispatch chain of `handle_callback_query`, in source order: what
runs after the initial `query.answer()` receipt acknowledgment. Returns the
effects emitted, the resulting session, and whether an exception reached the
dispatcher boundary. -/
def dispatch_tail (env : Env) (flt : Faults) (uid : Int) (data : String)
    (s : Session) : List Effect × Session × Bool :=
  if pyStartsWith data "check_account_status:" then
    let r := handle_account_status_check env flt data
    (r.1, s, r.2)
  else if data = "nav_start" then
    if flt.contentFail then ([], s, true)
    else if flt.editFail then ([], s, true)
    else ([Effect.edit env.startMenu.1 env.startMenu.2], s, false)
  else if data = "nav_balance" then
    if flt.contentFail then ([], s, true)
    else if flt.editFail then ([], s, true)
    else ([Effect.edit (env.balanceContent uid).1 (env.balanceContent uid).2], s, false)
  else if data = "nav_cap" then
    if flt.contentFail then ([], s, true)
    else if flt.editFail then ([], s, true)
    else ([Effect.edit env.capContent.1 env.capContent.2], s, false)
  else if data = "nav_rules" then
    if flt.contentFail then ([], s, true)
    else if flt.editFail then ([], s, true)
    else ([Effect.edit env.rulesContent.1 env.rulesContent.2], s, false)
  else if data = "nav_support" then
    let text := escape_markdown
      (env.supportMessage.getD "Contact our support team for assistance.")
    if flt.editFail then ([], s, true)
    else ([Effect.edit text (some ["nav_start"])], s, false)
  else if data = "withdraw_start" then
    if flt.balanceDetails then ([], s, true) else
    let total := env.balanceTotal uid
    if flt.settingFail then ([], s, true) else
    let min_withdraw := env.minWithdraw.getD 1
    let max_withdraw := env.maxWithdraw.getD 100
    if total < min_withdraw then
      ([Effect.answer (some ("Minimum withdrawal amount is $" ++ fmt2 min_withdraw))],
       s, false)
    else
      let available_amount := min total max_withdraw
      let s' := setKey (setKey s "withdrawal_amount" (SVal.num available_amount))
        "state" (SVal.str "waiting_for_address")
      if flt.editFail then ([], s', true)
      else
        ([Effect.edit (withdrawText total available_amount) (some ["nav_balance"])],
         s', false)
  else if pyStartsWith data "admin_confirm_withdrawal:" then
    if flt.adminFail then ([], s, true) else ([], s, false)
  else
    ([Effect.logWarning data, Effect.answer (some "❌ Unknown action")], s, false)

/-- The body of `handle_callback_query`'s try block: first the receipt
acknowledgment `query.answer()`, then the tag dispatch chain. -/
def handle_callback_body (env : Env) (flt : Faults) (uid : Int) (data : String)
    (s : Session) : List Effect × Session × Bool :=
  let r := dispatch_tail env flt uid data s
  (Effect.answer none :: r.1, r.2.1, r.2.2)

/-- `handle_callback_query` from the source: runs the dispatch body and, when
an exception reaches the boundary, logs it and emits the generic failure
acknowledgment. Total: no exception escapes. -/
def handle_callback_query (env : Env) (flt : Faults) (uid : Int) (data : String)
    (s : Session) : List Effect × Session :=
  let r := handle_callback_body env flt uid data s
  if r.2.2 then
    (r.1 ++ [Effect.logError, Effect.answer (some "❌ An error occurred. Please try again.")],
     r.2.1)
  else (r.1, r.2.1)

/-- Is this effect an acknowledgment (`query.answer` call)? -/
def isAck : Effect → Bool
  | Effect.answer _ => true
  | _ => false

/-- Is this effect a view update (`edit_message_text` call)? -/
def isEdit : Effect → Bool
  | Effect.edit _ _ => true
  | _ => false

/-- Number of acknowledgments in an effect list. -/
def ackCount (es : List Effect) : Nat :=
  (es.filter isAck).length

/-- Number of view updates in an effect list. -/
def editCount (es : List Effect) : Nat :=
  (es.filter isEdit).length

/-! ## Helper lemmas -/

theorem pySplitAux_ne_nil (sep : Char) (xs acc : List Char) :
    pySplitAux sep acc xs ≠ [] := by
  induction xs generalizing acc with
  | nil => simp [pySplitAux]
  | cons c cs ih =>
    simp only [pySplitAux]
    split
    · simp
    · exact ih _

theorem getLastD_cons_of_ne_nil (l : List (List Char)) (a : List Char) (h : l ≠ []) :
    (a :: l).getLastD [] = l.getLastD [] := by
  cases l with
  | nil => exact absurd rfl h
  | cons b t => simp [List.getLastD_cons]

theorem pySplitAux_no_sep (sep : Char) (xs acc : List Char) (h : sep ∉ xs) :
    pySplitAux sep acc xs = [acc.reverse ++ xs] := by
  induction xs generalizing acc with
  | nil => simp [pySplitAux]
  | cons c cs ih =>
    simp only [pySplitAux]
    rw [if_neg (by rintro rfl; exact h (List.mem_cons_self _ _))]
    rw [ih _ (fun hm => h (List.mem_cons_of_mem _ hm))]
    simp

theorem pySplitAux_getLastD_append (sep : Char) (xs acc ys : List Char) :
    (pySplitAux sep acc (xs ++ sep :: ys)).getLastD [] =
      (pySplitAux sep [] ys).getLastD [] := by
  induction xs generalizing acc with
  | nil =>
    simp only [List.nil_append, pySplitAux, if_pos rfl]
    exact getLastD_cons_of_ne_nil _ _ (pySplitAux_ne_nil _ _ _)
  | cons c cs ih =>
    simp only [List.cons_append, pySplitAux]
    split
    · exact (getLastD_cons_of_ne_nil _ _ (pySplitAux_ne_nil _ _ _)).trans (ih _)
    · exact ih _

theorem getKey_setKey_same (s : Session) (k : String) (v : SVal) :
    getKey (setKey s k v) k = some v := by
  induction s with
  | nil => simp [setKey, getKey]
  | cons hd tl ih =>
    obtain ⟨a, b⟩ := hd
    by_cases h : a = k <;> simp [setKey, getKey, h, ih]

theorem getKey_setKey_other (s : Session) (k k' : String) (v : SVal) (h : k' ≠ k) :
    getKey (setKey s k v) k' = getKey s k' := by
  induction s with
  | nil => simp [setKey, getKey, Ne.symm h]
  | cons hd tl ih =>
    obtain ⟨a, b⟩ := hd
    by_cases hak : a = k
    · subst hak
      simp [setKey, getKey, Ne.symm h]
    · simp [setKey, getKey, hak, ih]

@[simp]
theorem isAck_answer (o : Option String) : isAck (Effect.answer o) = true := rfl

@[simp]
theorem isAck_edit (t : String) (k : Option Markup) : isAck (Effect.edit t k) = false := rfl

@[simp]
theorem isAck_logWarning (m : String) : isAck (Effect.logWarning m) = false := rfl

@[simp]
theorem isAck_logError : isAck Effect.logError = false := rfl

@[simp]
theorem isEdit_answer (o : Option String) : isEdit (Effect.answer o) = false := rfl

@[simp]
theorem isEdit_edit (t : String) (k : Option Markup) : isEdit (Effect.edit t k) = true := rfl

@[simp]
theorem isEdit_logWarning (m : String) : isEdit (Effect.logWarning m) = false := rfl

@[simp]
theorem isEdit_logError : isEdit Effect.logError = false := rfl

theorem ackCount_append (a b : List Effect) :
    ackCount (a ++ b) = ackCount a + ackCount b := by
  simp [ackCount, List.filter_append]

theorem editCount_append (a b : List Effect) :
    editCount (a ++ b) = editCount a + editCount b := by
  simp [editCount, List.filter_append]

theorem hasc_edit_le_one (env : Env) (flt : Faults) (data : String) :
    editCount (handle_account_status_check env flt data).1 ≤ 1 := by
  unfold handle_account_status_check
  by_cases hf : flt.accountLookup = true
  · simp [hf, editCount]
  · simp only [Bool.not_eq_true] at hf
    simp only [hf, Bool.false_eq_true, if_false]
    cases h : env.getAccount (jobIdOf data) with
    | none => simp [editCount]
    | some a =>
      by_cases ht : a.time_remaining.getD 0 ≤ 0 <;>
      by_cases h2 : flt.countriesConfig = true <;>
      by_cases h3 : flt.editFail = true <;>
        simp [ht, h2, h3, editCount, List.filter]

theorem tail_edit_le_one (env : Env) (flt : Faults) (uid : Int) (data : String)
    (s : Session) :
    editCount (dispatch_tail env flt uid data s).1 ≤ 1 := by
  unfold dispatch_tail
  by_cases h1 : pyStartsWith data "check_account_status:" = true
  · rw [if_pos h1]; exact hasc_edit_le_one env flt data
  rw [if_neg h1]
  by_cases h2 : data = "nav_start"
  · rw [if_pos h2]
    by_cases f1 : flt.contentFail = true
    · rw [if_pos f1]; exact Nat.zero_le 1
    rw [if_neg f1]
    by_cases f2 : flt.editFail = true
    · rw [if_pos f2]; exact Nat.zero_le 1
    rw [if_neg f2]; exact Nat.le_refl 1
  rw [if_neg h2]
  by_cases h3 : data = "nav_balance"
  · rw [if_pos h3]
    by_cases f1 : flt.contentFail = true
    · rw [if_pos f1]; exact Nat.zero_le 1
    rw [if_neg f1]
    by_cases f2 : flt.editFail = true
    · rw [if_pos f2]; exact Nat.zero_le 1
    rw [if_neg f2]; exact Nat.le_refl 1
  rw [if_neg h3]
  by_cases h4 : data = "nav_cap"
  · rw [if_pos h4]
    by_cases f1 : flt.contentFail = true
    · rw [if_pos f1]; exact Nat.zero_le 1
    rw [if_neg f1]
    by_cases f2 : flt.editFail = true
    · rw [if_pos f2]; exact Nat.zero_le 1
    rw [if_neg f2]; exact Nat.le_refl 1
  rw [if_neg h4]
  by_cases h5 : data = "nav_rules"
  · rw [if_pos h5]
    by_cases f1 : flt.contentFail = true
    · rw [if_pos f1]; exact Nat.zero_le 1
    rw [if_neg f1]
    by_cases f2 : flt.editFail = true
    · rw [if_pos f2]; exact Nat.zero_le 1
    rw [if_neg f2]; exact Nat.le_refl 1
  rw [if_neg h5]
  by_cases h6 : data = "nav_support"
  · rw [if_pos h6]
    by_cases f2 : flt.editFail = true
    · rw [if_pos f2]; exact Nat.zero_le 1
    rw [if_neg f2]; exact Nat.le_refl 1
  rw [if_neg h6]
  by_cases h7 : data = "withdraw_start"
  · rw [if_pos h7]
    by_cases f1 : flt.balanceDetails = true
    · rw [if_pos f1]; exact Nat.zero_le 1
    rw [if_neg f1]
    by_cases f2 : flt.settingFail = true
    · rw [if_pos f2]; exact Nat.zero_le 1
    rw [if_neg f2]
    by_cases hlt : env.balanceTotal uid < env.minWithdraw.getD 1
    · rw [if_pos hlt]; exact Nat.zero_le 1
    rw [if_neg hlt]
    by_cases f3 : flt.editFail = true
    · rw [if_pos f3]; exact Nat.zero_le 1
    rw [if_neg f3]; exact Nat.le_refl 1
  rw [if_neg h7]
  by_cases h8 : pyStartsWith data "admin_confirm_withdrawal:" = true
  · rw [if_pos h8]
    by_cases f1 : flt.adminFail = true
    · rw [if_pos f1]; exact Nat.zero_le 1
    rw [if_neg f1]; exact Nat.zero_le 1
  rw [if_neg h8]; exact Nat.zero_le 1

theorem body_effects_bounds (env : Env) (flt : Faults) (uid : Int) (data : String)
    (s : Session) :
    1 ≤ ackCount (handle_callback_body env flt uid data s).1 ∧
    editCount (handle_callback_body env flt uid data s).1 ≤ 1 := by
  have hedit := tail_edit_le_one env flt uid data s
  unfold handle_callback_body
  constructor
  · simp [ackCount, List.filter_cons]
  · simpa [editCount, List.filter_cons] using hedit

/-! ## Concrete environments used by witnesses and counterexamples -/

/-- A demonstration environment: one expired job, one running job, one job
whose record lacks the `time_remaining` field; the country table maps prefix
"44" to price 1.50 and prefix "998" to a record without `price_ok`; every
user's total balance is 2.50; both withdrawal settings are unset. -/
def demoEnv : Env :=
  ⟨fun j => if j = "jexp" then some ⟨some 0, "44777"⟩
    else if j = "jrun" then some ⟨some 125, "44777"⟩
    else if j = "jmiss" then some ⟨none, "998123"⟩ else none,
   [("44", ⟨some (Rat.divInt 3 2)⟩), ("998", ⟨none⟩)],
   fun _ => Rat.divInt 5 2, none, none,
   ("m", none), fun _ => ("b", none), ("c", none), ("r", none), none⟩

/-- Like `demoEnv` but the job "jmiss" explicitly carries `time_remaining = 0`. -/
def demoEnvZero : Env :=
  ⟨fun j => if j = "jexp" then some ⟨some 0, "44777"⟩
    else if j = "jrun" then some ⟨some 125, "44777"⟩
    else if j = "jmiss" then some ⟨some 0, "998123"⟩ else none,
   [("44", ⟨some (Rat.divInt 3 2)⟩), ("998", ⟨none⟩)],
   fun _ => Rat.divInt 5 2, none, none,
   ("m", none), fun _ => ("b", none), ("c", none), ("r", none), none⟩

/-- An environment whose users hold a total balance of 0.50, below the default
minimum withdrawal of 1.00. -/
def envPoor : Env :=
  ⟨fun _ => none, [], fun _ => Rat.divInt 1 2, none, none,
   ("m", none), fun _ => ("b", none), ("c", none), ("r", none), none⟩

/-- An environment whose ledger stores an account under the full colon-bearing
suffix "a:b"; used to show which job identifier the evaluator actually uses. -/
def envColon : Env :=
  ⟨fun j => if j = "a:b" then some ⟨some 50, "1"⟩ else none,
   [], fun _ => 0, none, none,
   ("m", none), fun _ => ("b", none), ("c", none), ("r", none), none⟩

/-- The fault configuration in which `database.get_account_time_remaining`
raises. -/
def lookupFault : Faults := ⟨true, false, false, false, false, false, false⟩

/-! ## Claim theorems -/

/-- Claim C1 (amended): every invocation of `Dispatch` emits at least one
acknowledgment — the receipt acknowledgment is always emitted first, and a
follow-up alert or error acknowledgment may add more — and performs at most
one view update, for every environment, fault configuration, user, event tag
and session. -/
theorem dispatch_ack_edit_invariant (env : Env) (flt : Faults) (uid : Int)
    (data : String) (s : Session) :
    1 ≤ ackCount (handle_callback_query env flt uid data s).1 ∧
    editCount (handle_callback_query env flt uid data s).1 ≤ 1 := by
  obtain ⟨hak, hed⟩ := body_effects_bounds env flt uid data s
  have ca : ackCount [Effect.logError,
      Effect.answer (some "❌ An error occurred. Please try again.")] = 1 := rfl
  have ce : editCount [Effect.logError,
      Effect.answer (some "❌ An error occurred. Please try again.")] = 0 := rfl
  simp only [handle_callback_query]
  by_cases hb : (handle_callback_body env flt uid data s).2.2 = true
  · rw [if_pos hb]
    constructor
    · rw [ackCount_append, ca]; omega
    · rw [editCount_append, ce]; omega
  · rw [if_neg hb]
    exact ⟨hak, hed⟩

/-- Claim C1 counterexample: on the unrecognized tag "bogus" the dispatcher
emits two acknowledgments (the receipt acknowledgment and the unknown-action
alert), refuting "exactly one acknowledgment is emitted per invocation". -/
theorem dispatch_two_acks_on_unknown_tag :
    ackCount (handle_callback_query demoEnv noFaults 7 "bogus" []).1 = 2 ∧
    (2 : Nat) ≠ 1 := by
  decide

/-- Claim C6: whenever an exception from the delegated handler reaches the
dispatcher boundary, the dispatcher catches it, appends exactly a log entry
and the generic failure acknowledgment to the effects emitted so far, keeps
the session produced so far, and returns normally — `handle_callback_query`
is a total function, so no exception propagates and one failed event cannot
affect the processing of any other event. -/
theorem dispatcher_boundary_catches (env : Env) (flt : Faults) (uid : Int)
    (data : String) (s : Session)
    (h : (handle_callback_body env flt uid data s).2.2 = true) :
    handle_callback_query env flt uid data s =
      ((handle_callback_body env flt uid data s).1 ++
        [Effect.logError, Effect.answer (some "❌ An error occurred. Please try again.")],
       (handle_callback_body env flt uid data s).2.1) := by
  simp only [handle_callback_query]
  rw [if_pos h]

/-- Witness for C6: when the account lookup raises during a status check, the
output is the receipt acknowledgment followed by the error log and the generic
failure acknowledgment. -/
theorem dispatcher_boundary_catches_witness :
    (handle_callback_body demoEnv lookupFault 7 "check_account_status:jexp" []).2.2 = true ∧
    handle_callback_query demoEnv lookupFault 7 "check_account_status:jexp" [] =
      ([Effect.answer none, Effect.logError,
        Effect.answer (some "❌ An error occurred. Please try again.")], []) :=
  ⟨by decide,
   (dispatcher_boundary_catches demoEnv lookupFault 7 "check_account_status:jexp" []
      (by decide)).trans (by decide)⟩

/-- Claim C7: for a tag matching no known literal and no known prefix, the
dispatcher emits the receipt acknowledgment, logs the event at warning level,
emits exactly one generic unknown-action acknowledgment, leaves the session
unchanged, and takes no error path (it returns normally for every fault
configuration). -/
theorem unknown_tag_single_ack (env : Env) (flt : Faults) (uid : Int)
    (data : String) (s : Session)
    (h1 : pyStartsWith data "check_account_status:" = false)
    (h2 : data ≠ "nav_start") (h3 : data ≠ "nav_balance") (h4 : data ≠ "nav_cap")
    (h5 : data ≠ "nav_rules") (h6 : data ≠ "nav_support") (h7 : data ≠ "withdraw_start")
    (h8 : pyStartsWith data "admin_confirm_withdrawal:" = false) :
    handle_callback_query env flt uid data s =
      ([Effect.answer none, Effect.logWarning data,
        Effect.answer (some "❌ Unknown action")], s) ∧
    ((handle_callback_query env flt uid data s).1.count
      (Effect.answer (some "❌ Unknown action"))) = 1 := by
  have hq : handle_callback_body env flt uid data s =
      ([Effect.answer none, Effect.logWarning data,
        Effect.answer (some "❌ Unknown action")], s, false) := by
    unfold handle_callback_body dispatch_tail
    rw [if_neg (by simp [h1]), if_neg h2, if_neg h3, if_neg h4, if_neg h5, if_neg h6,
      if_neg h7, if_neg (by simp [h8])]
  refine ⟨?_, ?_⟩
  · simp [handle_callback_query, hq]
  · simp [handle_callback_query, hq, List.count_cons]

/-- Witness for C7: the unrecognized tag "bogus" produces the receipt
acknowledgment, the warning log and the unknown-action acknowledgment. -/
theorem unknown_tag_single_ack_witness :
    pyStartsWith "bogus" "check_account_status:" = false ∧
    handle_callback_query demoEnv noFaults 7 "bogus" [] =
      ([Effect.answer none, Effect.logWarning "bogus",
        Effect.answer (some "❌ Unknown action")], []) :=
  ⟨by decide,
   (unknown_tag_single_ack demoEnv noFaults 7 "bogus" [] (by decide) (by decide)
      (by decide) (by decide) (by decide) (by decide) (by decide) (by decide)).1⟩

/-- Claim C2: for a found job whose remaining time is not positive, the
Countdown Evaluator returns Expired, prices the job via the first-match
country-prefix lookup (`lookupPrice`, yielding 0 when no prefix matches),
emits the expired alert followed by the terminal processing view, and the
emitted view carries no interactive control (keyboard `none`), so the polling
control is never re-armed. -/
theorem countdown_expired_terminal (env : Env) (data : String) (a : Account)
    (ha : env.getAccount (jobIdOf data) = some a)
    (ht : a.time_remaining.getD 0 ≤ 0) :
    countdownResult env data = CountdownResult.Expired ∧
    handle_account_status_check env noFaults data =
      ([Effect.answer (some "⏰ Time expired! Processing will begin shortly."),
        Effect.edit (expiredText a.phone_number (lookupPrice env.countries a.phone_number))
          none], false) := by
  constructor
  · unfold countdownResult
    rw [ha]
    simp [ht]
  · simp only [handle_account_status_check, noFaults]
    rw [ha]
    simp [ht]

set_option maxRecDepth 8000 in
/-- Witness for C2: the expired job "jexp" (phone prefix "44", price 1.50). -/
theorem countdown_expired_terminal_witness :
    demoEnv.getAccount (jobIdOf "check_account_status:jexp") = some ⟨some 0, "44777"⟩ ∧
    countdownResult demoEnv "check_account_status:jexp" = CountdownResult.Expired ∧
    handle_account_status_check demoEnv noFaults "check_account_status:jexp" =
      ([Effect.answer (some "⏰ Time expired! Processing will begin shortly."),
        Effect.edit (expiredText "44777" (Rat.divInt 3 2)) none], false) := by
  have h := countdown_expired_terminal demoEnv "check_account_status:jexp"
    ⟨some 0, "44777"⟩ (by decide) (by decide)
  exact ⟨by decide, h.1, h.2.trans (by decide)⟩

/-- Claim C3: for a found job with positive remaining time, the Countdown
Evaluator returns Pending with exactly the ledger-reported seconds, emits a
transient alert containing that exact integer, renders the view via
`countdownText` (whose remaining field is zero-padded `minutes:seconds` with
`minutes = tr // 60` and `seconds = tr % 60`), and re-arms the interactive
control whose callback data carries the same job identifier. -/
theorem countdown_pending_rearm (env : Env) (data : String) (a : Account)
    (ha : env.getAccount (jobIdOf data) = some a)
    (ht : 0 < a.time_remaining.getD 0) :
    countdownResult env data = CountdownResult.Pending (a.time_remaining.getD 0) ∧
    handle_account_status_check env noFaults data =
      ([Effect.answer (some ("👆 You must wait for " ++ toString (a.time_remaining.getD 0)
          ++ " seconds more.")),
        Effect.edit
          (countdownText a.phone_number (lookupPrice env.countries a.phone_number)
            (a.time_remaining.getD 0))
          (some ["check_account_status:" ++ jobIdOf data])], false) := by
  have hnle : ¬ (a.time_remaining.getD 0 ≤ 0) := not_le.mpr ht
  constructor
  · unfold countdownResult
    rw [ha]
    simp [hnle]
  · simp only [handle_account_status_check, noFaults]
    rw [ha]
    simp [hnle]

set_option maxRecDepth 8000 in
/-- Witness for C3: the running job "jrun" with 125 seconds remaining: the
alert carries "125" and the rendered view shows "02:05". -/
theorem countdown_pending_rearm_witness :
    (0 : Int) < ((some 125 : Option Int).getD 0) ∧
    handle_account_status_check demoEnv noFaults "check_account_status:jrun" =
      ([Effect.answer (some "👆 You must wait for 125 seconds more."),
        Effect.edit "⏳ *Account Verification*\n\n📱 Number: `44777`\n💰 Price: `$1\\.50`\n⏰ Remaining: *02:05*\n\n🔍 Spam Status: 🟡 New Registration\n\n👆 The bot will automatically verify your account\\."
          (some ["check_account_status:jrun"])], false) := by
  have h := countdown_pending_rearm demoEnv "check_account_status:jrun"
    ⟨some 125, "44777"⟩ (by decide) (by decide)
  exact ⟨by decide, h.2.trans (by decide)⟩

/-- Claim C10: a job record lacking the `time_remaining` field is treated as
having 0 seconds remaining: the evaluator classifies it Expired and behaves
exactly as it does in an environment whose record carries an explicit 0 (same
terminal view, no re-armed control). -/
theorem missing_time_remaining_expired (env env' : Env) (data : String) (a : Account)
    (ha : env.getAccount (jobIdOf data) = some a)
    (hn : a.time_remaining = none)
    (ha' : env'.getAccount (jobIdOf data) = some ⟨some 0, a.phone_number⟩)
    (hc : env'.countries = env.countries) :
    countdownResult env data = CountdownResult.Expired ∧
    handle_account_status_check env noFaults data =
      handle_account_status_check env' noFaults data := by
  constructor
  · unfold countdownResult
    rw [ha]
    simp [hn]
  · simp only [handle_account_status_check, noFaults]
    rw [ha, ha', hc]
    simp [hn]

set_option maxRecDepth 8000 in
/-- Witness for C10: the job "jmiss" whose record has no `time_remaining`
field behaves exactly like the same job with an explicit 0. -/
theorem missing_time_remaining_expired_witness :
    demoEnv.getAccount (jobIdOf "check_account_status:jmiss") = some ⟨none, "998123"⟩ ∧
    countdownResult demoEnv "check_account_status:jmiss" = CountdownResult.Expired ∧
    handle_account_status_check demoEnv noFaults "check_account_status:jmiss" =
      handle_account_status_check demoEnvZero noFaults "check_account_status:jmiss" := by
  have h := missing_time_remaining_expired demoEnv demoEnvZero "check_account_status:jmiss"
    ⟨none, "998123"⟩ (by decide) rfl (by decide) (by decide)
  exact ⟨by decide, h.1, h.2⟩

/-- Claim C4: for a user whose total balance is at least the configured
minimum (`min_withdraw`/`max_withdraw` read from settings with defaults 1.00
and 100.00 when unset), the withdrawal evaluator computes
`eligible_amount = min(total_balance, max_withdraw)` at full precision, emits
the withdrawal view, and its only session mutation is staging that frozen
amount under "withdrawal_amount" together with the awaiting-address marker
under "state": every other session key is unchanged. -/
theorem withdraw_eligible_stages_amount (env : Env) (uid : Int) (s : Session)
    (h : env.minWithdraw.getD 1 ≤ env.balanceTotal uid) :
    handle_callback_query env noFaults uid "withdraw_start" s =
      ([Effect.answer none,
        Effect.edit
          (withdrawText (env.balanceTotal uid)
            (min (env.balanceTotal uid) (env.maxWithdraw.getD 100)))
          (some ["nav_balance"])],
       setKey (setKey s "withdrawal_amount"
           (SVal.num (min (env.balanceTotal uid) (env.maxWithdraw.getD 100))))
         "state" (SVal.str "waiting_for_address")) ∧
    getKey (handle_callback_query env noFaults uid "withdraw_start" s).2 "withdrawal_amount"
      = some (SVal.num (min (env.balanceTotal uid) (env.maxWithdraw.getD 100))) ∧
    getKey (handle_callback_query env noFaults uid "withdraw_start" s).2 "state"
      = some (SVal.str "waiting_for_address") ∧
    ∀ k, k ≠ "withdrawal_amount" → k ≠ "state" →
      getKey (handle_callback_query env noFaults uid "withdraw_start" s).2 k
        = getKey s k := by
  have hnlt : ¬ (env.balanceTotal uid < env.minWithdraw.getD 1) := not_lt.mpr h
  have htail : dispatch_tail env noFaults uid "withdraw_start" s =
      ([Effect.edit
          (withdrawText (env.balanceTotal uid)
            (min (env.balanceTotal uid) (env.maxWithdraw.getD 100)))
          (some ["nav_balance"])],
       setKey (setKey s "withdrawal_amount"
           (SVal.num (min (env.balanceTotal uid) (env.maxWithdraw.getD 100))))
         "state" (SVal.str "waiting_for_address"), false) := by
    unfold dispatch_tail
    rw [if_neg (by decide), if_neg (by decide), if_neg (by decide), if_neg (by decide),
      if_neg (by decide), if_neg (by decide), if_pos rfl, if_neg (by decide),
      if_neg (by decide), if_neg hnlt, if_neg (by decide)]
  have hq : handle_callback_query env noFaults uid "withdraw_start" s =
      ([Effect.answer none,
        Effect.edit
          (withdrawText (env.balanceTotal uid)
            (min (env.balanceTotal uid) (env.maxWithdraw.getD 100)))
          (some ["nav_balance"])],
       setKey (setKey s "withdrawal_amount"
           (SVal.num (min (env.balanceTotal uid) (env.maxWithdraw.getD 100))))
         "state" (SVal.str "waiting_for_address")) := by
    unfold handle_callback_query handle_callback_body
    rw [htail]
    rfl
  refine ⟨hq, ?_, ?_, ?_⟩
  · rw [hq, getKey_setKey_other _ _ _ _ (by decide)]
    exact getKey_setKey_same _ _ _
  · rw [hq]
    exact getKey_setKey_same _ _ _
  · intro k hk1 hk2
    rw [hq, getKey_setKey_other _ _ _ _ hk2, getKey_setKey_other _ _ _ _ hk1]

set_option maxRecDepth 8000 in
/-- Witness for C4: with balance 2.50 and default settings the staged amount
is 2.50 and the session gains exactly the two staged keys. -/
theorem withdraw_eligible_stages_amount_witness :
    (demoEnv.minWithdraw.getD 1 ≤ demoEnv.balanceTotal 7) ∧
    handle_callback_query demoEnv noFaults 7 "withdraw_start" [] =
      ([Effect.answer none,
        Effect.edit "💸 *Withdrawal Request*\n\n💰 Available Balance: `$2\\.50`\n💵 Withdrawal Amount: `$2\\.50`\n\nPlease send your wallet address to proceed\\."
          (some ["nav_balance"])],
       [("withdrawal_amount", SVal.num (Rat.divInt 5 2)),
        ("state", SVal.str "waiting_for_address")]) := by
  have h := withdraw_eligible_stages_amount demoEnv 7 [] (by decide)
  exact ⟨by decide, h.1.trans (by decide)⟩

/-- Claim C5: for a user whose total balance is strictly below the configured
minimum, the withdrawal evaluator emits an alert stating the minimum amount
in two-decimal display, and performs no session mutation: the session
component of the result is exactly the input session. -/
theorem withdraw_ineligible_no_mutation (env : Env) (uid : Int) (s : Session)
    (h : env.balanceTotal uid < env.minWithdraw.getD 1) :
    handle_callback_query env noFaults uid "withdraw_start" s =
      ([Effect.answer none,
        Effect.answer
          (some ("Minimum withdrawal amount is $" ++ fmt2 (env.minWithdraw.getD 1)))],
       s) := by
  have htail : dispatch_tail env noFaults uid "withdraw_start" s =
      ([Effect.answer
          (some ("Minimum withdrawal amount is $" ++ fmt2 (env.minWithdraw.getD 1)))],
       s, false) := by
    unfold dispatch_tail
    rw [if_neg (by decide), if_neg (by decide), if_neg (by decide), if_neg (by decide),
      if_neg (by decide), if_neg (by decide), if_pos rfl, if_neg (by decide),
      if_neg (by decide), if_pos h]
  unfold handle_callback_query handle_callback_body
  rw [htail]
  rfl

/-- Witness for C5: balance 0.50 against the default minimum 1.00 produces the
"$1.00" minimum alert and leaves the empty session empty. -/
theorem withdraw_ineligible_no_mutation_witness :
    (envPoor.balanceTotal 7 < envPoor.minWithdraw.getD 1) ∧
    handle_callback_query envPoor noFaults 7 "withdraw_start" [] =
      ([Effect.answer none,
        Effect.answer (some "Minimum withdrawal amount is $1.00")], []) := by
  have h := withdraw_ineligible_no_mutation envPoor 7 [] (by decide)
  exact ⟨by decide, h.trans (by decide)⟩

/-- Claim C8: the monetary comparisons of the withdrawal computation are
evaluated at full precision, not on 2-digit rounded display values: whenever
the total is strictly below the minimum, the evaluator returns Ineligible —
even when both values have the same 2-digit display (`fmt2`), in which case
the spec-contrast evaluator on rounded display values would instead return
Eligible; and whenever the total is not below the minimum, the eligible
amount is the full-precision `min total max`. -/
theorem withdraw_full_precision_compare (t m x : Rat)
    (hlt : t < m) (hr : round2 t = round2 m) :
    withdrawEval t m x = WithdrawResult.Ineligible ∧
    withdrawEvalOnRounded t m x = WithdrawResult.Eligible (min (round2 t) (round2 x)) ∧
    fmt2 t = fmt2 m ∧
    (∀ t2 m2 x2 : Rat, ¬ t2 < m2 →
      withdrawEval t2 m2 x2 = WithdrawResult.Eligible (min t2 x2)) := by
  have hc : cents t = cents m := by
    have h1 : ((cents t : Rat)) / 100 = ((cents m : Rat)) / 100 := by
      simpa [round2, Rat.divInt_eq_div] using hr
    have h2 : ((cents t : Rat)) = ((cents m : Rat)) := by
      field_simp at h1
      exact_mod_cast h1
    exact_mod_cast h2
  refine ⟨?_, ?_, ?_, ?_⟩
  · unfold withdrawEval
    rw [if_pos hlt]
  · unfold withdrawEvalOnRounded
    rw [hr, if_neg (lt_irrefl _)]
  · simp [fmt2, hc]
  · intro t2 m2 x2 hn
    unfold withdrawEval
    rw [if_neg hn]

/-- Witness for C8: total 0.999 against minimum 1.00 — both display as
"1.00", the code returns Ineligible, the rounded-display contrast evaluator
would return Eligible. -/
theorem withdraw_full_precision_compare_witness :
    (Rat.divInt 999 1000 < (1 : Rat)) ∧
    round2 (Rat.divInt 999 1000) = round2 1 ∧
    withdrawEval (Rat.divInt 999 1000) 1 100 = WithdrawResult.Ineligible ∧
    withdrawEvalOnRounded (Rat.divInt 999 1000) 1 100 =
      WithdrawResult.Eligible (min (round2 (Rat.divInt 999 1000)) (round2 100)) ∧
    fmt2 (Rat.divInt 999 1000) = fmt2 1 := by
  have h := withdraw_full_precision_compare (Rat.divInt 999 1000) 1 100
    (by decide) (by decide)
  exact ⟨by decide, by decide, h.1, h.2.1, h.2.2.1⟩

/-- Claim C9 counterexample: for the tag "check_account_status:a:b", whose
suffix after the first delimiter is "a:b", the extracted job identifier is
the last segment "b", not the entire suffix; consequently the evaluator
reports NotFound even though the ledger stores the job under "a:b". -/
theorem jobid_not_full_suffix :
    jobIdOf "check_account_status:a:b" = "b" ∧ ("b" : String) ≠ "a:b" ∧
    envColon.getAccount "a:b" = some ⟨some 50, "1"⟩ ∧
    countdownResult envColon "check_account_status:a:b" = CountdownResult.NotFound := by
  decide

/-- Claim C9 (amended): the job identifier handed to the verification-status
handler is the last colon-delimited segment of the tag, which equals the
entire suffix after "check_account_status:" exactly when that suffix contains
no colon. -/
theorem jobid_last_segment (p : String) (hp : (':' : Char) ∉ p.data) :
    jobIdOf ("check_account_status:" ++ p) = p := by
  unfold jobIdOf
  have hd : ("check_account_status:" ++ p).data =
      "check_account_status".data ++ ':' :: p.data := by
    rw [String.data_append]
    have hx : ("check_account_status:" : String).data =
        ("check_account_status" : String).data ++ [':'] := by decide
    rw [hx, List.append_assoc]
    rfl
  rw [hd, pySplitAux_getLastD_append, pySplitAux_no_sep _ _ _ hp]
  simp

/-- Witness for C9 (amended): a colon-free payload "jrun" round-trips. -/
theorem jobid_last_segment_witness :
    ((':' : Char) ∉ ("jrun" : String).data) ∧
    jobIdOf ("check_account_status:" ++ "jrun") = "jrun" :=
  ⟨by decide, jobid_last_segment "jrun" (by decide)⟩
